import Mathlib

/-!
Verification of the Robo_backend HTTP gateway (`src/index.js`, with a second
observed version of the same program in `src/unnamed/part_000`).

The gateway is an Express application that proxies command, sensor and camera
stream requests to two embedded upstream devices.  We embed the data that the
source configures directly (route paths, rewrite rules, targets, header hooks,
error responses) and model the generic forwarding behaviour of the
`http-proxy-middleware` library — which is not part of this repository's
sources — from the specification, in clearly marked definitions.
-/

namespace RoboBackend

/-- HTTP methods the gateway deals with. -/
inductive Method where
  | GET
  | POST
  | OPTIONS
  | OTHER
deriving DecidableEq, Repr

/-- A header map, as a JavaScript header object: a partial map from header
name to value.  `proxyRes.headers['X'] = v` is `setHeader`. -/
def Headers : Type := String → Option String

/-- The empty header object. -/
def emptyHeaders : Headers := fun _ => none

/-- JavaScript property assignment on a header object. -/
def setHeader (hs : Headers) (name v : String) : Headers :=
  fun n => if n = name then some v else hs n

/-- Header lookup. -/
def getHeader (hs : Headers) (name : String) : Option String := hs name

/-- A response body: a JSON object (as produced by `res.json`), a plain
string (as produced by `res.send`), or raw relayed bytes. -/
inductive Body where
  | json (fields : List (String × String))
  | text (s : String)
  | raw (bytes : List Nat)
deriving DecidableEq, Repr

/-- An HTTP response as delivered to the client. -/
structure Response where
  status : Nat
  headers : Headers
  body : Body

/-- An inbound client request.  The query string is kept separate from the
path, as the proxy's path rewriting never touches it. -/
structure Request where
  method : Method
  path : String
  query : String
  hostHeader : String
deriving DecidableEq, Repr

/-- A request as issued to an upstream device. -/
structure UpstreamRequest where
  method : Method
  path : String
  query : String
  hostHeader : String
  target : String
deriving DecidableEq, Repr

/-- A response received from an upstream device. -/
structure UpstreamResponse where
  status : Nat
  headers : Headers
  body : Body

/-- Express `res.status(s).json(obj)`. -/
def jsonResponse (status : Nat) (fields : List (String × String)) : Response :=
  { status := status
    headers := setHeader emptyHeaders "Content-Type" "application/json"
    body := .json fields }

/-- Express `res.status(s).send(str)`; a string body is sent as text/html. -/
def textResponse (status : Nat) (s : String) : Response :=
  { status := status
    headers := setHeader emptyHeaders "Content-Type" "text/html"
    body := .text s }

/-- Express `res.json(obj)`, which defaults the status code to 200. -/
def jsonOk (fields : List (String × String)) : Response :=
  jsonResponse 200 fields

/-- Field lookup in a JSON response body. -/
def jsonField (r : Response) (k : String) : Option String :=
  match r.body with
  | .json fields => (fields.find? (fun p => p.1 == k)).map (fun p => p.2)
  | _ => none

/-- Configured controller address (`ESP_CAR_IP` in `src/index.js`). -/
def ESP_CAR_IP : String := "192.168.4.1"

/-- Configured camera address (`ESP_CAM_IP` in `src/index.js`). -/
def ESP_CAM_IP : String := "192.168.225.143"

/-- One registered proxy middleware: the options object handed to
`createProxyMiddleware`, together with the public path it is mounted on.
`timeout`/`proxyTimeout` are the (never set in this source) bounded
connect/idle timeout options of the library; `errorLog` records the
`console.error` tag emitted by `onError`, `errorResponse` the response it
writes. -/
structure ProxyRoute where
  publicPath : String
  target : String
  changeOrigin : Bool
  rewriteFrom : String
  rewriteTo : String
  onProxyRes : Headers → Headers
  timeout : Option Nat
  proxyTimeout : Option Nat
  errorLog : Option String
  errorResponse : Response

/-- The `/api/sensor` proxy of `src/index.js` (lines 36–49). -/
def sensorProxy : ProxyRoute :=
  { publicPath := "/api/sensor"
    target := "http://" ++ ESP_CAR_IP
    changeOrigin := true
    rewriteFrom := "^/api/sensor"
    rewriteTo := "/sensor"
    onProxyRes := fun h => setHeader h "Access-Control-Allow-Origin" "*"
    timeout := none
    proxyTimeout := none
    errorLog := some "Sensor proxy error:"
    errorResponse := jsonResponse 500 [("error", "Proxy error for sensor")] }

/-- The motor command list of `src/index.js` (line 52). -/
def motorCommands : List String := ["forward", "backward", "left", "right", "stop"]

/-- The per-command proxy the `motorCommands.forEach` loop of `src/index.js`
(lines 53–69) registers. -/
def motorProxy (command : String) : ProxyRoute :=
  { publicPath := "/api/" ++ command
    target := "http://" ++ ESP_CAR_IP
    changeOrigin := true
    rewriteFrom := "^/api/" ++ command
    rewriteTo := "/" ++ command
    onProxyRes := fun h => setHeader h "Access-Control-Allow-Origin" "*"
    timeout := none
    proxyTimeout := none
    errorLog := some (command ++ " proxy error:")
    errorResponse := jsonResponse 500 [("error", "Proxy error for " ++ command)] }

/-- The valve command list of `src/index.js` (line 72). -/
def valveCommands : List String := ["valve1_on", "valve1_off", "valve2_on", "valve2_off"]

/-- The per-command proxy the `valveCommands.forEach` loop of `src/index.js`
(lines 73–88) registers. -/
def valveProxy (command : String) : ProxyRoute :=
  { publicPath := "/api/" ++ command
    target := "http://" ++ ESP_CAR_IP
    changeOrigin := true
    rewriteFrom := "^/api/" ++ command
    rewriteTo := "/" ++ command
    onProxyRes := fun h => setHeader h "Access-Control-Allow-Origin" "*"
    timeout := none
    proxyTimeout := none
    errorLog := some (command ++ " proxy error:")
    errorResponse := jsonResponse 500 [("error", "Proxy error for " ++ command)] }

/-- The `/api/stream` proxy of `src/index.js` (lines 91–108). -/
def streamProxy : ProxyRoute :=
  { publicPath := "/api/stream"
    target := "http://" ++ ESP_CAM_IP
    changeOrigin := true
    rewriteFrom := "^/api/stream"
    rewriteTo := "/stream"
    onProxyRes := fun h =>
      setHeader
        (setHeader
          (setHeader
            (setHeader
              (setHeader h "Content-Type"
                "multipart/x-mixed-replace; boundary=123456789000000000000987654321")
              "Access-Control-Allow-Origin" "*")
            "Cache-Control" "no-cache, no-store, must-revalidate")
          "Pragma" "no-cache")
        "Expires" "0"
    timeout := none
    proxyTimeout := none
    errorLog := some "Stream proxy error:"
    errorResponse := textResponse 500 "Stream unavailable - Check CAM IP connectivity" }

/-- The command/sensor proxies (the JSON-error routes) of `src/index.js`. -/
def commandSensorProxies : List ProxyRoute :=
  sensorProxy :: (motorCommands.map motorProxy ++ valveCommands.map valveProxy)

/-- Every proxy middleware `src/index.js` registers. -/
def allProxies : List ProxyRoute :=
  commandSensorProxies ++ [streamProxy]

/-- Whether the string `pre` is a leading part of `s` (on the character
lists, so that proofs can evaluate it). -/
def strHasLead (pre s : String) : Bool := pre.data.isPrefixOf s.data

/-- Drop the first `n` characters of a string. -/
def strDropN (s : String) (n : Nat) : String := ⟨s.data.drop n⟩

/-- Character length of a string. -/
def strLen (s : String) : Nat := s.data.length

/-- A `pathRewrite` rule, pattern to replacement, applied to a path.  Every
rule in this source is an anchored pattern of the shape `^/api/X`; the
library replaces the matched leading part of the path with the replacement
and leaves a non-matching path unchanged. -/
def applyRewrite (pattern replacement path : String) : String :=
  if strHasLead "^" pattern then
    let pre := strDropN pattern 1
    if strHasLead pre path then replacement ++ strDropN path (strLen pre) else path
  else path

/-- The host part of a `http://` target string. -/
def hostOf (target : String) : String :=
  if strHasLead "http://" target then strDropN target 7 else target

/-- Modelled from the spec: the forwarding primitive of the proxy middleware
(the `http-proxy-middleware` library, not part of this repository's sources).
It rewrites the inbound path by the route's rewrite rule, preserves the method
and the query string, and — with `changeOrigin` — sends the upstream's own
host as the `Host` header instead of the client's. -/
def forwardRequest (r : ProxyRoute) (req : Request) : UpstreamRequest :=
  { method := req.method
    path := applyRewrite r.rewriteFrom r.rewriteTo req.path
    query := req.query
    hostHeader := if r.changeOrigin then hostOf r.target else req.hostHeader
    target := r.target }

/-- Modelled from the spec: one inbound request on a proxied route issues
exactly one upstream request. -/
def forwardedRequests (r : ProxyRoute) (req : Request) : List UpstreamRequest :=
  [forwardRequest r req]

/-- What the upstream does for a given proxied exchange: answer, or be
unreachable (connect failure or timeout). -/
inductive UpstreamOutcome where
  | ok (resp : UpstreamResponse)
  | unreachable

/-- Modelled from the spec: the response a proxied route delivers to the
client.  On a successful upstream response the proxy copies the status code
and body and applies the route's `onProxyRes` header hook; on an unreachable
upstream the route's `onError` handler writes `errorResponse`.  Total: every
outcome yields a response, the process never terminates on a proxy error. -/
def proxyHandle (r : ProxyRoute) (out : UpstreamOutcome) : Response :=
  match out with
  | .ok u => { status := u.status, headers := r.onProxyRes u.headers, body := u.body }
  | .unreachable => r.errorResponse

/-- Modelled from the spec: the gateway is stateless across requests; a run
serves each session with `proxyHandle` independently. -/
def serveAll (sessions : List (ProxyRoute × UpstreamOutcome)) : List Response :=
  sessions.map (fun s => proxyHandle s.1 s.2)

/-- The `/api/status` handler of `src/index.js` (lines 26–33); `timestamp` is
the `new Date().toISOString()` value. -/
def statusHandler (timestamp : String) : Response :=
  jsonOk
    [("status", "OK"), ("timestamp", timestamp),
     ("car_ip", ESP_CAR_IP), ("cam_ip", ESP_CAM_IP)]

/-!
The second observed version of the program, `src/unnamed/part_000`.  It
differs from `src/index.js` in the configured camera address, in the absence
of `console.error` logging and of an `onProxyRes` hook on the sensor route,
and in the stream route's header policy and error body.
-/

namespace V0

/-- Configured controller address of `src/unnamed/part_000` (line 10). -/
def ESP_CAR_IP : String := "192.168.4.1"

/-- Configured camera address of `src/unnamed/part_000` (line 11). -/
def ESP_CAM_IP : String := "192.168.1.100"

/-- The `/api/sensor` proxy of `src/unnamed/part_000` (lines 28–37): no
`onProxyRes` hook and no `console.error` call. -/
def sensorProxy : ProxyRoute :=
  { publicPath := "/api/sensor"
    target := "http://" ++ ESP_CAR_IP
    changeOrigin := true
    rewriteFrom := "^/api/sensor"
    rewriteTo := "/sensor"
    onProxyRes := fun h => h
    timeout := none
    proxyTimeout := none
    errorLog := none
    errorResponse := jsonResponse 500 [("error", "Proxy error for sensor")] }

/-- The per-command proxy the `motorCommands.forEach` loop of
`src/unnamed/part_000` (lines 41–56) registers. -/
def motorProxy (command : String) : ProxyRoute :=
  { publicPath := "/api/" ++ command
    target := "http://" ++ ESP_CAR_IP
    changeOrigin := true
    rewriteFrom := "^/api/" ++ command
    rewriteTo := "/" ++ command
    onProxyRes := fun h => setHeader h "Access-Control-Allow-Origin" "*"
    timeout := none
    proxyTimeout := none
    errorLog := none
    errorResponse := jsonResponse 500 [("error", "Proxy error for " ++ command)] }

/-- The per-command proxy the `valveCommands.forEach` loop of
`src/unnamed/part_000` (lines 60–74) registers. -/
def valveProxy (command : String) : ProxyRoute :=
  { publicPath := "/api/" ++ command
    target := "http://" ++ ESP_CAR_IP
    changeOrigin := true
    rewriteFrom := "^/api/" ++ command
    rewriteTo := "/" ++ command
    onProxyRes := fun h => setHeader h "Access-Control-Allow-Origin" "*"
    timeout := none
    proxyTimeout := none
    errorLog := none
    errorResponse := jsonResponse 500 [("error", "Proxy error for " ++ command)] }

/-- The `/api/stream` proxy of `src/unnamed/part_000` (lines 77–94): only a
`Cache-Control: no-cache` header besides the content type and CORS headers,
and a shorter plain-text error body. -/
def streamProxy : ProxyRoute :=
  { publicPath := "/api/stream"
    target := "http://" ++ ESP_CAM_IP ++ "/stream"
    changeOrigin := true
    rewriteFrom := "^/api/stream"
    rewriteTo := "/stream"
    onProxyRes := fun h =>
      setHeader
        (setHeader
          (setHeader h "Content-Type"
            "multipart/x-mixed-replace; boundary=123456789000000000000987654321")
          "Access-Control-Allow-Origin" "*")
        "Cache-Control" "no-cache"
    timeout := none
    proxyTimeout := none
    errorLog := some "Stream proxy error:"
    errorResponse := textResponse 500 "Stream unavailable" }

end V0

/-- The two registered upstream devices. -/
inductive Upstream where
  | controller
  | camera
deriving DecidableEq, Repr

/-- The registry of upstream targets the gateway is configured with. -/
def registeredTargets : List Upstream := [Upstream.controller, Upstream.camera]

/-- One entry of the route table: a public path, the upstream it forwards to
(`none` for the locally answered status route), and the upstream path. -/
structure RouteEntry where
  publicPath : String
  upstream : Option Upstream
  upstreamPath : Option String
deriving DecidableEq, Repr

/-- The route table `src/index.js` builds at startup, in registration order:
the local status route, the sensor proxy, one route per motor command, one
per valve command, and the stream proxy.  No route is registered after
startup. -/
def routeTable : List RouteEntry :=
  [⟨"/api/status", none, none⟩,
   ⟨"/api/sensor", some Upstream.controller, some "/sensor"⟩] ++
  motorCommands.map (fun c => ⟨"/api/" ++ c, some Upstream.controller, some ("/" ++ c)⟩) ++
  valveCommands.map (fun c => ⟨"/api/" ++ c, some Upstream.controller, some ("/" ++ c)⟩) ++
  [⟨"/api/stream", some Upstream.camera, some "/stream"⟩]

/-- The claim that every proxied route configures bounded connect and idle
timeouts, i.e. that the proxy options set the library's `timeout` and
`proxyTimeout` fields. -/
def claimBoundedTimeouts : Prop :=
  ∀ r ∈ allProxies, r.timeout.isSome = true ∧ r.proxyTimeout.isSome = true

/-- An event of a stream-relay session: a body chunk arriving from the
upstream, or a body chunk flushed to the client. -/
inductive StreamEvent where
  | recv (chunk : List Nat)
  | send (chunk : List Nat)
deriving DecidableEq, Repr

/-- Modelled from the spec: the flush-per-chunk stream relay of the proxy
middleware (not part of this repository's sources).  Each chunk received
from the upstream is flushed to the client before the next chunk is read;
nothing is buffered across chunks. -/
def relayTrace (chunks : List (List Nat)) : List StreamEvent :=
  match chunks with
  | [] => []
  | c :: rest => StreamEvent.recv c :: StreamEvent.send c :: relayTrace rest

/-- The bytes a client receives from a relay trace, in order. -/
def clientBytes (tr : List StreamEvent) : List Nat :=
  match tr with
  | [] => []
  | StreamEvent.send c :: rest => c ++ clientBytes rest
  | StreamEvent.recv _ :: rest => clientBytes rest

/-- Behavioural equivalence of two registered proxies: they issue the same
upstream request for every inbound request, and deliver the same client
response for every upstream outcome. -/
def behaviorallyEquivalent (r1 r2 : ProxyRoute) : Prop :=
  (∀ req : Request, forwardRequest r1 req = forwardRequest r2 req) ∧
  (∀ out : UpstreamOutcome, proxyHandle r1 out = proxyHandle r2 out)

/-- C1: a GET request to `/api/R`, for every registered motor or valve
command `R`, causes exactly one upstream request, addressed to the controller
target at path `/R`, with the same method (GET) and the same query string as
the inbound request. -/
theorem command_route_single_forward (c q hostH : String) :
    (c ∈ motorCommands →
      forwardedRequests (motorProxy c) ⟨Method.GET, "/api/" ++ c, q, hostH⟩ =
        [⟨Method.GET, "/" ++ c, q, ESP_CAR_IP, "http://" ++ ESP_CAR_IP⟩]) ∧
    (c ∈ valveCommands →
      forwardedRequests (valveProxy c) ⟨Method.GET, "/api/" ++ c, q, hostH⟩ =
        [⟨Method.GET, "/" ++ c, q, ESP_CAR_IP, "http://" ++ ESP_CAR_IP⟩]) := by
  constructor
  · intro hc
    simp only [motorCommands, List.mem_cons, List.not_mem_nil, or_false] at hc
    rcases hc with rfl | rfl | rfl | rfl | rfl <;> rfl
  · intro hc
    simp only [valveCommands, List.mem_cons, List.not_mem_nil, or_false] at hc
    rcases hc with rfl | rfl | rfl | rfl <;> rfl

/-- Witness for C1 at the motor command `stop` with a nonempty query. -/
theorem command_route_single_forward_witness :
    forwardedRequests (motorProxy "stop") ⟨Method.GET, "/api/" ++ "stop", "speed=2", "client.host"⟩ =
      [⟨Method.GET, "/" ++ "stop", "speed=2", ESP_CAR_IP, "http://" ++ ESP_CAR_IP⟩] :=
  (command_route_single_forward "stop" "speed=2" "client.host").1 (by decide)

/-- C2: on a successful camera upstream response, the `/api/stream` response
delivered to the client carries the fixed multipart content type and the
no-cache headers, whatever headers the upstream sent. -/
theorem stream_success_headers (u : UpstreamResponse) :
    getHeader (proxyHandle streamProxy (UpstreamOutcome.ok u)).headers "Content-Type" =
      some "multipart/x-mixed-replace; boundary=123456789000000000000987654321" ∧
    getHeader (proxyHandle streamProxy (UpstreamOutcome.ok u)).headers "Cache-Control" =
      some "no-cache, no-store, must-revalidate" ∧
    getHeader (proxyHandle streamProxy (UpstreamOutcome.ok u)).headers "Pragma" =
      some "no-cache" ∧
    getHeader (proxyHandle streamProxy (UpstreamOutcome.ok u)).headers "Expires" =
      some "0" :=
  ⟨rfl, rfl, rfl, rfl⟩

/-- C3: with an unreachable upstream, every command/sensor route answers
HTTP 500 with a JSON body carrying an `error` string, the stream route
answers HTTP 500 with a plain-text body, and the gateway keeps serving:
every session of a run gets a response. -/
theorem unreachable_upstream_responses :
    (∀ r ∈ commandSensorProxies,
      (proxyHandle r UpstreamOutcome.unreachable).status = 500 ∧
      ∃ msg, jsonField (proxyHandle r UpstreamOutcome.unreachable) "error" = some msg) ∧
    ((proxyHandle streamProxy UpstreamOutcome.unreachable).status = 500 ∧
      ∃ s, (proxyHandle streamProxy UpstreamOutcome.unreachable).body = Body.text s) ∧
    (∀ sessions, (serveAll sessions).length = sessions.length) := by
  refine ⟨?_, ⟨rfl, ⟨_, rfl⟩⟩, fun sessions => by simp [serveAll]⟩
  intro r hr
  rcases List.mem_cons.1 hr with rfl | hr'
  · exact ⟨rfl, ⟨_, rfl⟩⟩
  rcases List.mem_append.1 hr' with hm | hv
  · obtain ⟨c, -, rfl⟩ := List.mem_map.1 hm
    exact ⟨rfl, ⟨_, rfl⟩⟩
  · obtain ⟨c, -, rfl⟩ := List.mem_map.1 hv
    exact ⟨rfl, ⟨_, rfl⟩⟩

/-- Witness for C3 at the sensor route. -/
theorem unreachable_upstream_responses_witness :
    (proxyHandle sensorProxy UpstreamOutcome.unreachable).status = 500 ∧
    ∃ msg, jsonField (proxyHandle sensorProxy UpstreamOutcome.unreachable) "error" = some msg :=
  unreachable_upstream_responses.1 sensorProxy (List.mem_cons_self _ _)

/-- C4: whatever chunk sequence the camera upstream sends, the client
receives exactly those bytes in order, and as soon as there is more than one
chunk the first chunk is flushed to the client before the second chunk has
even been received from the upstream — the relay never buffers the body. -/
theorem stream_relay_bytes (chunks : List (List Nat)) :
    clientBytes (relayTrace chunks) = chunks.flatten ∧
    (∀ c1 c2 rest, chunks = c1 :: c2 :: rest →
      (relayTrace chunks)[1]? = some (StreamEvent.send c1) ∧
      (relayTrace chunks)[2]? = some (StreamEvent.recv c2)) := by
  constructor
  · induction chunks with
    | nil => rfl
    | cons c rest ih => simpa [relayTrace, clientBytes] using ih
  · rintro c1 c2 rest rfl
    exact ⟨rfl, rfl⟩

/-- Witness for C4 on a two-chunk stream. -/
theorem stream_relay_bytes_witness :
    (relayTrace [[1, 2], [3]])[1]? = some (StreamEvent.send [1, 2]) ∧
    (relayTrace [[1, 2], [3]])[2]? = some (StreamEvent.recv [3]) :=
  (stream_relay_bytes [[1, 2], [3]]).2 [1, 2] [3] [] rfl

/-- C5: for every motor or valve command route, a successful upstream
response is relayed with the upstream's status code and body, and the final
response carries `Access-Control-Allow-Origin: *` whether or not the
upstream set it. -/
theorem command_success_relay (c : String) (u : UpstreamResponse) :
    (c ∈ motorCommands →
      (proxyHandle (motorProxy c) (UpstreamOutcome.ok u)).status = u.status ∧
      (proxyHandle (motorProxy c) (UpstreamOutcome.ok u)).body = u.body ∧
      getHeader (proxyHandle (motorProxy c) (UpstreamOutcome.ok u)).headers
        "Access-Control-Allow-Origin" = some "*") ∧
    (c ∈ valveCommands →
      (proxyHandle (valveProxy c) (UpstreamOutcome.ok u)).status = u.status ∧
      (proxyHandle (valveProxy c) (UpstreamOutcome.ok u)).body = u.body ∧
      getHeader (proxyHandle (valveProxy c) (UpstreamOutcome.ok u)).headers
        "Access-Control-Allow-Origin" = some "*") :=
  ⟨fun _ => ⟨rfl, rfl, rfl⟩, fun _ => ⟨rfl, rfl, rfl⟩⟩

/-- Witness for C5 at the motor command `forward` and a concrete upstream
response that did not set the CORS header. -/
theorem command_success_relay_witness :
    (proxyHandle (motorProxy "forward")
      (UpstreamOutcome.ok ⟨204, emptyHeaders, Body.text "done"⟩)).status = 204 ∧
    (proxyHandle (motorProxy "forward")
      (UpstreamOutcome.ok ⟨204, emptyHeaders, Body.text "done"⟩)).body = Body.text "done" ∧
    getHeader (proxyHandle (motorProxy "forward")
      (UpstreamOutcome.ok ⟨204, emptyHeaders, Body.text "done"⟩)).headers
      "Access-Control-Allow-Origin" = some "*" :=
  (command_success_relay "forward" ⟨204, emptyHeaders, Body.text "done"⟩).1 (by decide)

/-- C6: every `/api/status` request, at any timestamp and independent of any
upstream, yields HTTP 200 with `status: "OK"` and the two configured
addresses verbatim; the handler is a pure total function of the timestamp. -/
theorem status_route_ok (ts : String) :
    (statusHandler ts).status = 200 ∧
    jsonField (statusHandler ts) "status" = some "OK" ∧
    jsonField (statusHandler ts) "car_ip" = some ESP_CAR_IP ∧
    jsonField (statusHandler ts) "cam_ip" = some ESP_CAM_IP ∧
    ESP_CAR_IP = "192.168.4.1" ∧ ESP_CAM_IP = "192.168.225.143" :=
  ⟨rfl, rfl, rfl, rfl, rfl, rfl⟩

/-- C7, counterexample: the sensor proxy options set neither the `timeout`
nor the `proxyTimeout` field, so it is false that every proxied route is
configured with bounded connect and idle timeouts. -/
theorem no_timeout_configured_counterexample : ¬ claimBoundedTimeouts := by
  intro h
  have hs := (h sensorProxy (List.mem_append_left _ (List.mem_cons_self _ _))).1
  simp [sensorProxy] at hs

/-- C7, amended: no proxied route configures a connect or idle timeout — on
every registered proxy both timeout options are left unset. -/
theorem no_timeouts_configured (r : ProxyRoute) (h : r ∈ allProxies) :
    r.timeout = none ∧ r.proxyTimeout = none := by
  rcases List.mem_append.1 h with h' | h'
  · rcases List.mem_cons.1 h' with rfl | h''
    · exact ⟨rfl, rfl⟩
    rcases List.mem_append.1 h'' with hm | hv
    · obtain ⟨c, -, rfl⟩ := List.mem_map.1 hm
      exact ⟨rfl, rfl⟩
    · obtain ⟨c, -, rfl⟩ := List.mem_map.1 hv
      exact ⟨rfl, rfl⟩
  · rcases List.mem_cons.1 h' with rfl | h''
    · exact ⟨rfl, rfl⟩
    · exact absurd h'' (List.not_mem_nil r)

/-- Witness for the amended C7 at the sensor route. -/
theorem no_timeouts_configured_witness :
    sensorProxy.timeout = none ∧ sensorProxy.proxyTimeout = none :=
  no_timeouts_configured sensorProxy (List.mem_append_left _ (List.mem_cons_self _ _))

/-- C8: every registered proxy sets `changeOrigin`, so for every inbound
request the Host header issued to the upstream is the upstream target's own
host, never the client's Host header value. -/
theorem host_header_rewritten (r : ProxyRoute) (h : r ∈ allProxies) (req : Request) :
    r.changeOrigin = true ∧
    (forwardRequest r req).hostHeader = hostOf r.target := by
  rcases List.mem_append.1 h with h' | h'
  · rcases List.mem_cons.1 h' with rfl | h''
    · exact ⟨rfl, rfl⟩
    rcases List.mem_append.1 h'' with hm | hv
    · obtain ⟨c, -, rfl⟩ := List.mem_map.1 hm
      exact ⟨rfl, rfl⟩
    · obtain ⟨c, -, rfl⟩ := List.mem_map.1 hv
      exact ⟨rfl, rfl⟩
  · rcases List.mem_cons.1 h' with rfl | h''
    · exact ⟨rfl, rfl⟩
    · exact absurd h'' (List.not_mem_nil r)

/-- Witness for C8 at the stream route: the Host sent upstream is the
camera's address, not the client's. -/
theorem host_header_rewritten_witness :
    streamProxy.changeOrigin = true ∧
    (forwardRequest streamProxy
      ⟨Method.GET, "/api/stream", "", "evil.example:3000"⟩).hostHeader =
      hostOf streamProxy.target :=
  host_header_rewritten streamProxy
    (List.mem_append_right _ (List.mem_cons_self _ _))
    ⟨Method.GET, "/api/stream", "", "evil.example:3000"⟩

/-- C9: the startup route table has pairwise-distinct public paths, and
every entry that forwards at all forwards to one of the two registered
upstream targets. -/
theorem route_table_invariant :
    (routeTable.map (fun e => e.publicPath)).Nodup ∧
    ∀ e ∈ routeTable, ∀ u, e.upstream = some u → u ∈ registeredTargets := by
  refine ⟨by decide, ?_⟩
  intro e _ u _
  cases u <;> simp [registeredTargets]

/-- Witness for C9 at the sensor entry. -/
theorem route_table_invariant_witness : Upstream.controller ∈ registeredTargets :=
  route_table_invariant.2 ⟨"/api/sensor", some Upstream.controller, some "/sensor"⟩
    (by decide) Upstream.controller rfl

/-- C10: on every motor and valve command route the two observed source
versions are behaviourally equivalent — same upstream request for every
inbound request and same client response for every upstream outcome — while
their error logging differs. -/
theorem two_versions_equivalent (c : String) :
    (c ∈ motorCommands →
      behaviorallyEquivalent (motorProxy c) (V0.motorProxy c) ∧
      (motorProxy c).errorLog ≠ (V0.motorProxy c).errorLog) ∧
    (c ∈ valveCommands →
      behaviorallyEquivalent (valveProxy c) (V0.valveProxy c) ∧
      (valveProxy c).errorLog ≠ (V0.valveProxy c).errorLog) := by
  constructor
  · intro _
    refine ⟨⟨fun req => rfl, fun out => ?_⟩, by simp [motorProxy, V0.motorProxy]⟩
    cases out <;> rfl
  · intro _
    refine ⟨⟨fun req => rfl, fun out => ?_⟩, by simp [valveProxy, V0.valveProxy]⟩
    cases out <;> rfl

/-- Witness for C10 at the motor command `forward`. -/
theorem two_versions_equivalent_witness :
    behaviorallyEquivalent (motorProxy "forward") (V0.motorProxy "forward") ∧
    (motorProxy "forward").errorLog ≠ (V0.motorProxy "forward").errorLog :=
  (two_versions_equivalent "forward").1 (by decide)

end RoboBackend
